import Mathlib

/-!
Verification development for the `net` module of the `ssdp` crate
(`src/net/mod.rs` and `src/net/connector.rs`).

The Rust code is shallowly embedded:

* Strings are `List Char` (the inputs of interest are ASCII, where byte
  indices and character indices coincide).
* Machine integers (`u8`, `u16`, `u32`) are `Nat` with explicit bounds
  where the Rust code checks for overflow.
* The address parsers of Rust's standard library (`core::net::parser`),
  which the code calls through `FromStr` and `ToSocketAddrs`, are embedded
  function by function.
* OS-level socket calls are modelled by an oracle structure `Os` that fixes
  the outcome of every primitive, together with an explicit trace
  (`List OsCall`) of which primitives a function invoked, in order.
* Fallible Rust functions returning `io::Result` become `Except IOError`.
* The one place the code could panic (the `host.len() - 1` index arithmetic
  in `UdpConnector::connect`) is modelled with an `Option` layer: `none`
  means a panic.
-/

namespace Ssdp

/-- The error kinds of `std::io::ErrorKind` that this code can produce or
receive from the OS.  `other` covers every further kind, tagged by name. -/
inductive ErrorKind where
  | invalidInput
  | addrInUse
  | permissionDenied
  | other (tag : String)
  deriving DecidableEq, Repr

/-- Rust's `std::net::AddrParseError`: an opaque unit-like error value. -/
inductive AddrParseError where
  | invalid
  deriving DecidableEq, Repr

/-- The payload an `io::Error` carries: `io::Error::new(kind, e)` boxes `e`,
which here is either a plain message string (`&str`), an address parse
error, or a raw OS error code. -/
inductive ErrCause where
  | msg (s : String)
  | addrParse (e : AddrParseError)
  | osCode (code : Nat)
  deriving DecidableEq, Repr

/-- Model of `std::io::Error`: its kind plus the boxed cause. -/
structure IOError where
  kind : ErrorKind
  cause : ErrCause
  deriving DecidableEq, Repr

/-- `std::net::Ipv4Addr`: four octets, each `< 256`. -/
structure Ipv4Addr where
  o1 : Nat
  o2 : Nat
  o3 : Nat
  o4 : Nat
  deriving DecidableEq, Repr

/-- `std::net::Ipv6Addr`, as its eight 16-bit segments. -/
structure Ipv6Addr where
  segs : List Nat
  deriving DecidableEq, Repr

/-- `std::net::SocketAddrV4`: an IPv4 address and a port. -/
structure SocketAddrV4 where
  ip : Ipv4Addr
  port : Nat
  deriving DecidableEq, Repr

/-- `std::net::SocketAddrV6`: address, port, flow-info and scope-id. -/
structure SocketAddrV6 where
  ip : Ipv6Addr
  port : Nat
  flowinfo : Nat
  scopeId : Nat
  deriving DecidableEq, Repr

/-- `std::net::SocketAddr`. -/
inductive SocketAddr where
  | v4 (a : SocketAddrV4)
  | v6 (a : SocketAddrV6)
  deriving DecidableEq, Repr

/-- `std::net::IpAddr`. -/
inductive IpAddr where
  | v4 (a : Ipv4Addr)
  | v6 (a : Ipv6Addr)
  deriving DecidableEq, Repr

/-! ## Embedding of Rust's address parsing (`core::net::parser`)

The connector and the string implementation of `ToSocketAddrs` parse
addresses through `FromStr`, which is implemented in `core::net::parser`
via a small combinator state machine.  Each `read_*` method is embedded as
a function `List Char -> Option (result, rest)`; returning `none`
corresponds to the Rust parser failing and (because state is threaded
functionally) leaving the input where it was, which is exactly
`read_atomically`'s contract. -/

/-- Strings, modelled as lists of characters. -/
abbrev Str := List Char

/-- Rust's `char::to_digit(radix)`: digit value of `c` in the given radix,
accepting `0-9`, `a-z`, `A-Z`, and requiring the value to be below the
radix. -/
def digitValue (radix : Nat) (c : Char) : Option Nat :=
  let v : Option Nat :=
    if '0' ≤ c ∧ c ≤ '9' then some (c.toNat - '0'.toNat)
    else if 'a' ≤ c ∧ c ≤ 'z' then some (c.toNat - 'a'.toNat + 10)
    else if 'A' ≤ c ∧ c ≤ 'Z' then some (c.toNat - 'A'.toNat + 10)
    else none
  match v with
  | some d => if d < radix then some d else none
  | none => none

/-- The digit-consuming loop of `Parser::read_number`: consumes digit
characters greedily, failing (`none`) on overflow past `bound` (the
`checked_mul`/`checked_add` of the Rust code) or on exceeding
`maxDigits`.  Returns the accumulated value, the number of digits read and
the remaining input. -/
def readNumberLoop (radix bound : Nat) (maxDigits : Option Nat) :
    Str → Nat → Nat → Option (Nat × Nat × Str)
  | [], acc, cnt => some (acc, cnt, [])
  | c :: rest, acc, cnt =>
    match digitValue radix c with
    | none => some (acc, cnt, c :: rest)
    | some d =>
      let acc' := acc * radix + d
      if bound ≤ acc' then none
      else
        let cnt' := cnt + 1
        match maxDigits with
        | some m =>
          if m < cnt' then none
          else readNumberLoop radix bound maxDigits rest acc' cnt'
        | none => readNumberLoop radix bound maxDigits rest acc' cnt'

/-- `Parser::read_number(radix, max_digits, allow_zero_prefix)` over a
machine integer whose exclusive upper bound is `bound`: reads at least one
digit, rejects a redundant leading zero when `allowZeroPrefix` is false. -/
def readNumber (radix bound : Nat) (maxDigits : Option Nat)
    (allowZeroPrefix : Bool) (s : Str) : Option (Nat × Str) :=
  let hasLeadingZero : Bool := s.head? = some '0'
  match readNumberLoop radix bound maxDigits s 0 0 with
  | none => none
  | some (res, cnt, rest) =>
    if cnt = 0 then none
    else if !allowZeroPrefix && hasLeadingZero && decide (1 < cnt) then none
    else some (res, rest)

/-- `Parser::read_separator(sep, index, inner)`: for every group after the
first, require the separator character before the group. -/
def readSeparator (sep : Char) (i : Nat)
    (inner : Str → Option (α × Str)) (s : Str) : Option (α × Str) :=
  if i = 0 then inner s
  else
    match s with
    | [] => none
    | c :: rest => if c = sep then inner rest else none

/-- `Parser::read_ipv4_addr`: four decimal octets (at most 3 digits each,
no redundant leading zeros, each `< 256`) separated by dots. -/
def readIpv4 (s : Str) : Option (Ipv4Addr × Str) :=
  match readSeparator '.' 0 (readNumber 10 256 (some 3) false) s with
  | none => none
  | some (g1, s1) =>
    match readSeparator '.' 1 (readNumber 10 256 (some 3) false) s1 with
    | none => none
    | some (g2, s2) =>
      match readSeparator '.' 2 (readNumber 10 256 (some 3) false) s2 with
      | none => none
      | some (g3, s3) =>
        match readSeparator '.' 3 (readNumber 10 256 (some 3) false) s3 with
        | none => none
        | some (g4, s4) => some (⟨g1, g2, g3, g4⟩, s4)

/-- The `read_groups` helper of `Parser::read_ipv6_addr`.  `rem` is the
number of group slots still available and `i` the index of the next group
(so the Rust `limit` is `i + rem`).  Returns the list of groups read, a
flag recording whether a trailing embedded IPv4 address was read (it fills
two groups), and the remaining input.  A trailing IPv4 address is only
attempted while at least two slots remain (`i < limit - 1`). -/
def readGroupsAux : Nat → Nat → Str → List Nat × Bool × Str
  | 0, _, s => ([], false, s)
  | rem + 1, i, s =>
    match (if 1 ≤ rem then readSeparator ':' i readIpv4 s else none) with
    | some (a, rest) =>
      ([a.o1 * 256 + a.o2, a.o3 * 256 + a.o4], true, rest)
    | none =>
      match readSeparator ':' i (readNumber 16 65536 (some 4) true) s with
      | none => ([], false, s)
      | some (g, rest) =>
        let (gs, f, rest') := readGroupsAux rem (i + 1) rest
        (g :: gs, f, rest')

/-- `Parser::read_ipv6_addr`: up to eight groups; on fewer than eight, a
`::` gap of zero groups must follow, then trailing groups filling at most
`8 - head - 1` slots; an embedded IPv4 address may only appear at the very
end. -/
def readIpv6 (s : Str) : Option (Ipv6Addr × Str) :=
  let (head, headV4, s1) := readGroupsAux 8 0 s
  if head.length = 8 then some (⟨head⟩, s1)
  else if headV4 then none
  else
    match s1 with
    | ':' :: ':' :: s2 =>
      let limit := 8 - (head.length + 1)
      let (tail, _, s3) := readGroupsAux limit 0 s2
      some (⟨head ++ List.replicate (8 - head.length - tail.length) 0 ++ tail⟩, s3)
    | _ => none

/-- `Parser::read_scope_id`: a `%` followed by a decimal `u32`. -/
def readScopeId (s : Str) : Option (Nat × Str) :=
  match s with
  | '%' :: rest => readNumber 10 4294967296 none true rest
  | _ => none

/-- `Parser::read_port`: a `:` followed by a decimal `u16`. -/
def readPort (s : Str) : Option (Nat × Str) :=
  match s with
  | ':' :: rest => readNumber 10 65536 none true rest
  | _ => none

/-- `Parser::read_socket_addr_v4`: an IPv4 address followed by a port. -/
def readSockAddrV4 (s : Str) : Option (SocketAddrV4 × Str) :=
  match readIpv4 s with
  | none => none
  | some (ip, s1) =>
    match readPort s1 with
    | none => none
    | some (p, s2) => some (⟨ip, p⟩, s2)

/-- `Parser::read_socket_addr_v6`: `[`, an IPv6 address, an optional scope
id defaulting to `0`, `]`, then a port.  The parsed address has flow-info
`0` (`SocketAddrV6::new(ip, port, 0, scope_id)`). -/
def readSockAddrV6 (s : Str) : Option (SocketAddrV6 × Str) :=
  match s with
  | '[' :: s1 =>
    match readIpv6 s1 with
    | none => none
    | some (ip, s2) =>
      let (scope, s3) :=
        match readScopeId s2 with
        | some (sc, r) => (sc, r)
        | none => (0, s2)
      match s3 with
      | ']' :: s4 =>
        match readPort s4 with
        | none => none
        | some (p, s5) => some (⟨ip, p, 0, scope⟩, s5)
      | _ => none
  | _ => none

/-- `Parser::read_socket_addr`: a V4 socket address, or else a V6 one. -/
def readSockAddr (s : Str) : Option (SocketAddr × Str) :=
  match readSockAddrV4 s with
  | some (a, rest) => some (.v4 a, rest)
  | none =>
    match readSockAddrV6 s with
    | some (a, rest) => some (.v6 a, rest)
    | none => none

/-- `Parser::parse_with` / `FromStr`: run a reader and require the whole
input to be consumed, else `AddrParseError`. -/
def parseWith (reader : Str → Option (α × Str)) (s : Str) :
    Except AddrParseError α :=
  match reader s with
  | some (a, []) => .ok a
  | _ => .error .invalid

/-- `Ipv4Addr::from_str`. -/
def Ipv4Addr.fromStr (s : Str) : Except AddrParseError Ipv4Addr :=
  parseWith readIpv4 s

/-- `SocketAddrV6::from_str`. -/
def SocketAddrV6.fromStr (s : Str) : Except AddrParseError SocketAddrV6 :=
  parseWith readSockAddrV6 s

/-- `SocketAddr::from_str`. -/
def SocketAddr.fromStr (s : Str) : Except AddrParseError SocketAddr :=
  parseWith readSockAddr s

/-! ## String utilities used by the code under verification -/

/-- Rust `str::find(char)`: index of the first occurrence. -/
def strFind : Str → Char → Option Nat
  | [], _ => none
  | a :: rest, c => if a = c then some 0 else (strFind rest c).map (· + 1)

/-- Rust `str::rfind(char)`: index of the last occurrence. -/
def strRfind (s : Str) (c : Char) : Option Nat :=
  match strFind s.reverse c with
  | none => none
  | some i => some (s.length - 1 - i)

/-- Rust `str::rsplit_once(sep)`: split at the last occurrence of `sep`. -/
def rsplitOnce (sep : Char) (s : Str) : Option (Str × Str) :=
  match strRfind s sep with
  | none => none
  | some i => some (s.take i, s.drop (i + 1))

/-- Checked subtraction: `none` models the panic (debug overflow) of the
Rust expression `a - b` on `usize` when `b > a`. -/
def checkedSub (a b : Nat) : Option Nat :=
  if b ≤ a then some (a - b) else none

/-- The decimal digit character for `d < 10`. -/
def digitChar (d : Nat) : Char :=
  Char.ofNat ('0'.toNat + d)

/-- Fuel-indexed accumulator loop for decimal formatting. -/
def natToCharsAux : Nat → Nat → Str → Str
  | 0, _, acc => acc
  | fuel + 1, n, acc =>
    if n < 10 then digitChar n :: acc
    else natToCharsAux fuel (n / 10) (digitChar (n % 10) :: acc)

/-- Rust's `Display` for unsigned integers (the `{}` of
`format!("{}:{}", host, port)`): decimal digits, no sign, no padding. -/
def natToChars (n : Nat) : Str :=
  natToCharsAux (n + 1) n []

/-- Rust `u16::from_str`: an optional `+` sign, then at least one decimal
digit, value below `2^16`; leading zeros are allowed. -/
def parseU16 (s : Str) : Option Nat :=
  let digits := match s with
    | '+' :: rest => some rest
    | [] => none
    | l => some l
  match digits with
  | none => none
  | some [] => none
  | some l =>
    match readNumberLoop 10 65536 none l 0 0 with
    | none => none
    | some (v, _, []) => some v
    | some _ => none

/-! ## The `ToSocketAddrs` inputs

`addr_from_trait`, `bind_reuse` and `UdpConnector::new` are generic over
`A: ToSocketAddrs`.  An arbitrary implementation is embedded as the
outcome of its `to_socket_addrs` call: either an error or the list of
candidate addresses, in order.  The standard implementation for `str` is
embedded separately below. -/

/-- The outcome of `A::to_socket_addrs()` for an arbitrary input. -/
abbrev Resolution := Except IOError (List SocketAddr)

/-- Modelled from the spec and Rust std (`impl ToSocketAddrs for str`,
code outside this repository): first try to parse the whole string as a
socket-address literal, yielding a single candidate; otherwise split at
the last `:` (failing with an InvalidInput "invalid socket address" error
when there is none), parse the port as a `u16` (failing with an
InvalidInput "invalid port value" error), and defer to a DNS lookup,
which is a parameter here. -/
def strToSocketAddrs (dns : Str → Nat → Resolution) (s : Str) : Resolution :=
  match SocketAddr.fromStr s with
  | .ok a => .ok [a]
  | .error _ =>
    match rsplitOnce ':' s with
    | none => .error ⟨.invalidInput, .msg "invalid socket address"⟩
    | some (host, portStr) =>
      match parseU16 portStr with
      | none => .error ⟨.invalidInput, .msg "invalid port value"⟩
      | some p => dns host p

/-! ## The OS model

Socket handles and builders carry no information relevant to the claims;
a socket is an abstract handle (`Nat`) and a builder is opaque.  The `Os`
oracle fixes the outcome of every OS primitive; each embedded function
additionally returns the trace of primitives it invoked, in order. -/

/-- An abstract OS socket handle. -/
abbrev UdpSock := Nat

/-- One OS-level socket call, as recorded in a trace. -/
inductive OsCall where
  | newBuilderV4
  | newBuilderV6
  | setReuseAddress (b : Bool)
  | setReusePort (b : Bool)
  | builderBind (a : SocketAddr)
  | udpBind (a : SocketAddr)
  | tryClone
  | getLocalAddr
  | joinV4 (group : Ipv4Addr) (iface : Ipv4Addr)
  | joinV6 (group : Ipv6Addr) (scope : Nat)
  | leaveV4 (group : Ipv4Addr) (iface : Ipv4Addr)
  | leaveV6 (group : Ipv6Addr) (scope : Nat)
  deriving DecidableEq, Repr

/-- The OS oracle: the outcome of each socket primitive.  Builder handles
are opaque, so builder-creation outcomes are `Except IOError Unit` and
the builder argument of the later calls is dropped. -/
structure Os where
  newBuilderV4 : Except IOError Unit
  newBuilderV6 : Except IOError Unit
  reuseAddress : Bool → Except IOError Unit
  reusePort : Bool → Except IOError Unit
  builderBind : SocketAddr → Except IOError UdpSock
  udpBind : SocketAddr → Except IOError UdpSock
  tryClone : UdpSock → Except IOError UdpSock
  localAddr : UdpSock → Except IOError SocketAddr
  joinV4 : UdpSock → Ipv4Addr → Ipv4Addr → Except IOError Unit
  joinV6 : UdpSock → Ipv6Addr → Nat → Except IOError Unit
  leaveV4 : UdpSock → Ipv4Addr → Ipv4Addr → Except IOError Unit
  leaveV6 : UdpSock → Ipv6Addr → Nat → Except IOError Unit

/-! ## `src/net/mod.rs` -/

/-- `IpVersionMode` (src/net/mod.rs). -/
inductive IpVersionMode where
  | v4Only
  | v6Only
  | any
  deriving DecidableEq, Repr

/-- `addr_from_trait` (src/net/mod.rs): run the resolution (`?` propagates
its error verbatim) and return the first candidate; with zero candidates,
a fresh InvalidInput error "Failed To Parse SocketAddr". -/
def addr_from_trait (addr : Resolution) : Except IOError SocketAddr :=
  match addr with
  | .error e => .error e
  | .ok l =>
    match l.head? with
    | some n => .ok n
    | none => .error ⟨.invalidInput, .msg "Failed To Parse SocketAddr"⟩

/-- `IpVersionMode::from_addr` (src/net/mod.rs). -/
def IpVersionMode.from_addr (addr : Resolution) : Except IOError IpVersionMode :=
  match addr_from_trait addr with
  | .error e => .error e
  | .ok (.v4 _) => .ok .v4Only
  | .ok (.v6 _) => .ok .v6Only

/-- The `#[cfg(target_os = "windows")]` version of `reuse_port`
(src/net/mod.rs): only `reuse_address(true)`. -/
def reuse_port_windows (os : Os) : List OsCall × Except IOError Unit :=
  match os.reuseAddress true with
  | .error e => ([.setReuseAddress true], .error e)
  | .ok _ => ([.setReuseAddress true], .ok ())

/-- The `#[cfg(not(windows))]` version of `reuse_port` (src/net/mod.rs):
`reuse_address(true)` then `reuse_port(true)`. -/
def reuse_port_unix (os : Os) : List OsCall × Except IOError Unit :=
  match os.reuseAddress true with
  | .error e => ([.setReuseAddress true], .error e)
  | .ok _ =>
    match os.reusePort true with
    | .error e => ([.setReuseAddress true, .setReusePort true], .error e)
    | .ok _ => ([.setReuseAddress true, .setReusePort true], .ok ())

/-- `reuse_port`, with the compile-time platform as a parameter. -/
def reuse_port (windows : Bool) (os : Os) : List OsCall × Except IOError Unit :=
  if windows then reuse_port_windows os else reuse_port_unix os

/-- The builder-creation call selected by the address family of `a`. -/
def builderCallOf : SocketAddr → OsCall
  | .v4 _ => .newBuilderV4
  | .v6 _ => .newBuilderV6

/-- The outcome of creating the builder selected by the family of `a`. -/
def builderResOf (os : Os) : SocketAddr → Except IOError Unit
  | .v4 _ => os.newBuilderV4
  | .v6 _ => os.newBuilderV6

/-- `bind_reuse` (src/net/mod.rs): resolve the address, create the
family-matching `UdpBuilder`, run `reuse_port`, then `builder.bind`,
propagating every error verbatim. -/
def bind_reuse (windows : Bool) (os : Os) (local_addr : Resolution) :
    List OsCall × Except IOError UdpSock :=
  match addr_from_trait local_addr with
  | .error e => ([], .error e)
  | .ok a =>
    match builderResOf os a with
    | .error e => ([builderCallOf a], .error e)
    | .ok _ =>
      let (t, r) := reuse_port windows os
      match r with
      | .error e => (builderCallOf a :: t, .error e)
      | .ok _ =>
        (builderCallOf a :: t ++ [.builderBind a], os.builderBind a)

/-- The error both multicast operations produce on mismatched families. -/
def mismatchErr : IOError :=
  ⟨.invalidInput, .msg "Multicast And Interface Addresses Are Not The Same Version"⟩

/-- `join_multicast` (src/net/mod.rs): on matching families delegate to
the OS primitive (`join_multicast_v4(m, i.ip())` resp.
`join_multicast_v6(m, i.scope_id())`); on mismatch fail with
InvalidInput before any OS call. -/
def join_multicast (os : Os) (sock : UdpSock) (iface : SocketAddr)
    (mcast_addr : IpAddr) : List OsCall × Except IOError Unit :=
  match iface, mcast_addr with
  | .v4 i, .v4 m => ([.joinV4 m i.ip], os.joinV4 sock m i.ip)
  | .v6 i, .v6 m => ([.joinV6 m i.scopeId], os.joinV6 sock m i.scopeId)
  | _, _ => ([], .error mismatchErr)

/-- `leave_multicast` (src/net/mod.rs): like `join_multicast` but the
group is a `SocketAddr` and the primitives are `leave_multicast_v4(m.ip(),
i.ip())` resp. `leave_multicast_v6(m.ip(), i.scope_id())`. -/
def leave_multicast (os : Os) (sock : UdpSock) (iface_addr : SocketAddr)
    (mcast_addr : SocketAddr) : List OsCall × Except IOError Unit :=
  match iface_addr, mcast_addr with
  | .v4 i, .v4 m => ([.leaveV4 m.ip i.ip], os.leaveV4 sock m.ip i.ip)
  | .v6 i, .v6 m => ([.leaveV6 m.ip i.scopeId], os.leaveV6 sock m.ip i.scopeId)
  | _, _ => ([], .error mismatchErr)

/-! ## `src/net/connector.rs` -/

/-- The `UdpSender` collaborator (src/net/sender.rs is outside this core):
`UdpSender::new(udp_sock, sock_addr)` packages the cloned socket and the
computed destination address. -/
structure UdpSender where
  sock : UdpSock
  dest : SocketAddr
  deriving DecidableEq, Repr

/-- `UdpConnector` (src/net/connector.rs): wraps one bound socket. -/
structure UdpConnector where
  sock : UdpSock
  deriving DecidableEq, Repr

/-- `UdpConnector::new` (src/net/connector.rs): resolve through
`addr_from_trait`, then bind with plain `UdpSocket::bind`.  The second
parameter (the multicast-TTL option) is ignored by the source
(`_: Option<u32>`; the TTL-setting code is commented out). -/
def UdpConnector.new (os : Os) (local_addr : Resolution) (_ : Option Nat) :
    List OsCall × Except IOError UdpConnector :=
  match addr_from_trait local_addr with
  | .error e => ([], .error e)
  | .ok addr =>
    match os.udpBind addr with
    | .error e => ([.udpBind addr], .error e)
    | .ok udp => ([.udpBind addr], .ok ⟨udp⟩)

/-- `UdpConnector::local_addr` (src/net/connector.rs). -/
def UdpConnector.localAddr (os : Os) (c : UdpConnector) :
    Except IOError SocketAddr :=
  os.localAddr c.sock

/-- The bracket-framing condition of `UdpConnector::connect`:
`host.find('[') == Some(0) && host.rfind(']') == Some(host.len() - 1)`.
`&&` short-circuits, so `host.len() - 1` — whose debug-build underflow is
modelled by `checkedSub` and the outer `Option` (`none` = panic) — is
only evaluated when the left conjunct holds. -/
def bracketCheck (host : Str) : Option Bool :=
  if strFind host '[' = some 0 then
    (checkedSub host.length 1).map (fun k => decide (strRfind host ']' = some k))
  else
    some false

/-- `UdpConnector::connect` (src/net/connector.rs): clone the socket,
read the local address, then build the destination: for a V4 local
address parse `host` as an `Ipv4Addr`; for a V6 local address parse
`"host:port"` (host already bracketed) or `"[host]:port"` as a
`SocketAddrV6` and overwrite its flow-info and scope-id with the local
ones.  Parse failures become InvalidInput errors carrying the parse error.
The outer `Option` is the panic model: `none` would be the underflow in
`bracketCheck`. -/
def UdpConnector.connect (os : Os) (c : UdpConnector) (host : Str)
    (port : Nat) : Option (Except IOError UdpSender) :=
  match os.tryClone c.sock with
  | .error e => some (.error e)
  | .ok udpSock =>
    match os.localAddr c.sock with
    | .error e => some (.error e)
    | .ok (.v4 _) =>
      match Ipv4Addr.fromStr host with
      | .error err => some (.error ⟨.invalidInput, .addrParse err⟩)
      | .ok ip => some (.ok ⟨udpSock, .v4 ⟨ip, port⟩⟩)
    | .ok (.v6 n) =>
      match bracketCheck host with
      | none => none
      | some bracketed =>
        match (if bracketed
          then SocketAddrV6.fromStr (host ++ ':' :: natToChars port)
          else SocketAddrV6.fromStr ('[' :: host ++ ']' :: ':' :: natToChars port)) with
        | .error err => some (.error ⟨.invalidInput, .addrParse err⟩)
        | .ok a =>
          some (.ok ⟨udpSock,
            .v6 { a with flowinfo := n.flowinfo, scopeId := n.scopeId }⟩)

/-! ## Concrete instances used to exercise the definitions -/

/-- A concrete local address: `127.0.0.1:1900`. -/
def addrDemo : SocketAddr := .v4 ⟨⟨127, 0, 0, 1⟩, 1900⟩

/-- A concrete bound V6 local address with non-zero flow-info and
scope-id. -/
def n6Demo : SocketAddrV6 := ⟨⟨[0, 0, 0, 0, 0, 0, 0, 0]⟩, 1900, 42, 9⟩

/-- An OS oracle on which every primitive succeeds and the bound local
address is the V6 address `n6Demo`. -/
def osDemo : Os where
  newBuilderV4 := .ok ()
  newBuilderV6 := .ok ()
  reuseAddress := fun _ => .ok ()
  reusePort := fun _ => .ok ()
  builderBind := fun _ => .ok 7
  udpBind := fun _ => .ok 5
  tryClone := fun s => .ok (s + 1)
  localAddr := fun _ => .ok (.v6 n6Demo)
  joinV4 := fun _ _ _ => .ok ()
  joinV6 := fun _ _ _ => .ok ()
  leaveV4 := fun _ _ _ => .ok ()
  leaveV6 := fun _ _ _ => .ok ()

/-- Like `osDemo` but the socket is bound to a V4 local address. -/
def osDemo4 : Os :=
  { osDemo with localAddr := fun _ => .ok (.v4 ⟨⟨192, 168, 1, 2⟩, 1900⟩) }

/-- Like `osDemo` but the builder's bind call fails with an
address-in-use OS error. -/
def osBindErr : Os :=
  { osDemo with builderBind := fun _ => .error ⟨.addrInUse, .osCode 98⟩ }

/-- A connector holding the socket handle `osDemo.udpBind` returns. -/
def cDemo : UdpConnector := ⟨5⟩

/-- The value of a decimal digit list under an accumulator: the
specification of what `readNumberLoop` computes on digits. -/
def decValN (acc : Nat) : List Nat → Nat
  | [] => acc
  | d :: r => decValN (acc * 10 + d) r

/-! ## Claims -/

/-- C1, counterexample: on a concrete all-succeeding OS oracle and the
concrete address `127.0.0.1:1900`, `UdpConnector::new` performs exactly a
plain `UdpSocket::bind` and never sets address-reuse, whereas `bind_reuse`
does set address-reuse before binding — so `new` does not configure the
socket "exactly as bind_reuse would". -/
theorem new_skips_reuse_counterexample :
    (UdpConnector.new osDemo (.ok [addrDemo]) none).fst = [.udpBind addrDemo] ∧
    OsCall.setReuseAddress true ∈ (bind_reuse false osDemo (.ok [addrDemo])).fst ∧
    OsCall.setReuseAddress true ∉ (UdpConnector.new osDemo (.ok [addrDemo]) none).fst := by
  refine ⟨rfl, ?_, ?_⟩ <;> decide

/-- C1 (amended): `UdpConnector::new` resolves the address through
`addr_from_trait` and then binds it with a plain `UdpSocket::bind`; it
does not go through the `bind_reuse` path and sets neither address-reuse
nor port-reuse before binding. -/
theorem new_resolves_then_plain_bind (os : Os) (resolved : Resolution)
    (ttl : Option Nat) (a : SocketAddr)
    (h : addr_from_trait resolved = .ok a) :
    UdpConnector.new os resolved ttl =
      ([.udpBind a], (os.udpBind a).map UdpConnector.mk) ∧
    (∀ b, OsCall.setReuseAddress b ∉ (UdpConnector.new os resolved ttl).fst) ∧
    (∀ b, OsCall.setReusePort b ∉ (UdpConnector.new os resolved ttl).fst) := by
  unfold UdpConnector.new
  rw [h]
  refine ⟨?_, ?_, ?_⟩ <;> cases hb : os.udpBind a <;> simp [hb, Except.map]

/-- C1, witness for the amended theorem at the concrete oracle and
address. -/
theorem new_resolves_then_plain_bind_witness :
    UdpConnector.new osDemo (.ok [addrDemo]) none =
      ([.udpBind addrDemo], (osDemo.udpBind addrDemo).map UdpConnector.mk) ∧
    (∀ b, OsCall.setReuseAddress b ∉ (UdpConnector.new osDemo (.ok [addrDemo]) none).fst) ∧
    (∀ b, OsCall.setReusePort b ∉ (UdpConnector.new osDemo (.ok [addrDemo]) none).fst) :=
  new_resolves_then_plain_bind osDemo (.ok [addrDemo]) none addrDemo rfl

/-- C2, counterexample: when the underlying name lookup fails with an
error whose kind is not InvalidInput (here a lookup failure of kind
`other "lookup"`), `addr_from_trait` returns that error verbatim — its
kind is not InvalidInput, contradicting the claim that all such failures
collapse to the InvalidInput kind. -/
theorem addr_from_trait_kind_counterexample :
    addr_from_trait (.error ⟨.other "lookup", .osCode 11⟩) =
      .error ⟨.other "lookup", .osCode 11⟩ ∧
    (⟨.other "lookup", .osCode 11⟩ : IOError).kind ≠ .invalidInput :=
  ⟨rfl, by decide⟩

/-- C2 (amended): when resolution produces zero candidates,
`addr_from_trait` returns a fresh InvalidInput error; when the underlying
name lookup itself fails, the failure is propagated verbatim — the whole
error, kind and cause included, is preserved (rather than being re-tagged
as InvalidInput). -/
theorem addr_from_trait_error_paths :
    (∀ e : IOError, addr_from_trait (.error e) = .error e) ∧
    addr_from_trait (.ok []) =
      .error ⟨.invalidInput, .msg "Failed To Parse SocketAddr"⟩ :=
  ⟨fun _ => rfl, rfl⟩

/-- C5 (confirmed): `join_multicast` and `leave_multicast` fail with the
InvalidInput family-mismatch error and an empty OS-call trace whenever
the interface and group families differ; on matching families the V4 path
passes the group and the interface's IP to the OS primitive and the V6
path passes the group and the interface's scope id. -/
theorem multicast_family_dispatch (os : Os) (sock : UdpSock)
    (i4 g4 : SocketAddrV4) (i6 g6 : SocketAddrV6)
    (m4 : Ipv4Addr) (m6 : Ipv6Addr) :
    join_multicast os sock (.v4 i4) (.v4 m4) =
      ([.joinV4 m4 i4.ip], os.joinV4 sock m4 i4.ip) ∧
    join_multicast os sock (.v6 i6) (.v6 m6) =
      ([.joinV6 m6 i6.scopeId], os.joinV6 sock m6 i6.scopeId) ∧
    join_multicast os sock (.v4 i4) (.v6 m6) = ([], .error mismatchErr) ∧
    join_multicast os sock (.v6 i6) (.v4 m4) = ([], .error mismatchErr) ∧
    leave_multicast os sock (.v4 i4) (.v4 g4) =
      ([.leaveV4 g4.ip i4.ip], os.leaveV4 sock g4.ip i4.ip) ∧
    leave_multicast os sock (.v6 i6) (.v6 g6) =
      ([.leaveV6 g6.ip i6.scopeId], os.leaveV6 sock g6.ip i6.scopeId) ∧
    leave_multicast os sock (.v4 i4) (.v6 g6) = ([], .error mismatchErr) ∧
    leave_multicast os sock (.v6 i6) (.v4 g4) = ([], .error mismatchErr) ∧
    mismatchErr.kind = .invalidInput :=
  ⟨rfl, rfl, rfl, rfl, rfl, rfl, rfl, rfl, rfl⟩

/-- C8 (confirmed): `addr_from_trait` returns exactly the first candidate
of any non-empty resolution, independently of the remaining candidates;
with the standard string resolution, `"192.168.0.1:0"` resolves to the V4
address `192.168.0.1` port `0` and the bare `"192.168.0.1"` (no port)
fails with an InvalidInput error, in both cases without consulting DNS
(the result is the same for every `dns` function). -/
theorem addr_first_candidate :
    (∀ (a : SocketAddr) (rest : List SocketAddr),
      addr_from_trait (.ok (a :: rest)) = .ok a) ∧
    (∀ dns, addr_from_trait (strToSocketAddrs dns "192.168.0.1:0".toList) =
      .ok (.v4 ⟨⟨192, 168, 0, 1⟩, 0⟩)) ∧
    (∀ dns, addr_from_trait (strToSocketAddrs dns "192.168.0.1".toList) =
      .error ⟨.invalidInput, .msg "invalid socket address"⟩) :=
  ⟨fun _ _ => rfl, fun _ => rfl, fun _ => rfl⟩

/-- C9 (confirmed): the multicast-TTL parameter of `UdpConnector::new` is
inert — for every OS oracle and resolution, any two values of the
parameter produce the identical OS-call trace and the identical result. -/
theorem new_ttl_inert (os : Os) (resolved : Resolution)
    (t1 t2 : Option Nat) :
    UdpConnector.new os resolved t1 = UdpConnector.new os resolved t2 := rfl

/-- The leading-bracket conjunct forces the host to be non-empty, so the
`host.len() - 1` subtraction in the bracket check never underflows. -/
theorem bracketCheck_isSome (host : Str) : (bracketCheck host).isSome := by
  unfold bracketCheck
  split
  next hfind =>
    cases host with
    | nil => simp [strFind] at hfind
    | cons c r =>
      have h1 : 1 ≤ (c :: r).length := by simp
      simp [checkedSub, h1]
  next => simp

/-- C10 (confirmed): `UdpConnector::connect` is total over its textual
inputs — for every OS oracle, connector, host string (empty and
ill-bracketed ones included) and port it returns a value (`Ok` or `Err`,
never the `none` that models a panic): the only panic site, the
`host.len() - 1` arithmetic, is short-circuited away on the empty
string. -/
theorem connect_total (os : Os) (c : UdpConnector) (host : Str)
    (port : Nat) : (UdpConnector.connect os c host port).isSome := by
  unfold UdpConnector.connect
  split
  · simp
  · split
    · simp
    · split <;> simp
    · split
      next heq =>
        have h := bracketCheck_isSome host
        rw [heq] at h
        simp at h
      next b heq => split <;> simp

/-- C3 (confirmed): whenever the connector's bound local address is V6
and `connect` succeeds, the destination is a V6 address whose flow-info
and scope-id are exactly the local bound address's, whatever the host
text encoded. -/
theorem connect_v6_flow_scope (os : Os) (c : UdpConnector) (host : Str)
    (port : Nat) (n : SocketAddrV6) (s : UdpSender)
    (h6 : os.localAddr c.sock = .ok (.v6 n))
    (hs : UdpConnector.connect os c host port = some (.ok s)) :
    ∃ a : SocketAddrV6, s.dest = .v6 a ∧
      a.flowinfo = n.flowinfo ∧ a.scopeId = n.scopeId := by
  cases htc : os.tryClone c.sock with
  | error e => simp [UdpConnector.connect, htc] at hs
  | ok k =>
    simp only [UdpConnector.connect, htc, h6] at hs
    split at hs
    · exact absurd hs (by simp)
    · split at hs
      · simp at hs
      · next a heq2 =>
        simp only [Option.some.injEq, Except.ok.injEq] at hs
        exact ⟨{ a with flowinfo := n.flowinfo, scopeId := n.scopeId },
          by rw [← hs], rfl, rfl⟩

/-- C3, witness: on the concrete oracle whose local address has flow-info
42 and scope-id 9, connecting to host `"::2"` succeeds and the
destination carries flow-info 42 and scope-id 9. -/
theorem connect_v6_flow_scope_witness :
    ∃ s : UdpSender,
      UdpConnector.connect osDemo cDemo "::2".toList 1900 = some (.ok s) ∧
      ∃ a : SocketAddrV6, s.dest = .v6 a ∧
        a.flowinfo = n6Demo.flowinfo ∧ a.scopeId = n6Demo.scopeId := by
  refine ⟨⟨6, .v6 ⟨⟨[0, 0, 0, 0, 0, 0, 0, 2]⟩, 1900, 42, 9⟩⟩, rfl, ?_⟩
  exact connect_v6_flow_scope osDemo cDemo "::2".toList 1900 n6Demo _ rfl rfl

/-- C4 (confirmed): with a V4-bound connector, `connect` parses the host
strictly as an IPv4 literal and never resolves it: a valid dotted-quad
literal yields exactly that address with the given port, and any other
host (a hostname, say) yields an InvalidInput error carrying the parse
error as its cause. -/
theorem connect_v4_literal (os : Os) (c : UdpConnector) (la : SocketAddrV4)
    (host : Str) (port : Nat) (k : UdpSock)
    (hc : os.tryClone c.sock = .ok k)
    (h4 : os.localAddr c.sock = .ok (.v4 la)) :
    (∀ a, Ipv4Addr.fromStr host = .ok a →
      UdpConnector.connect os c host port = some (.ok ⟨k, .v4 ⟨a, port⟩⟩)) ∧
    (∀ e, Ipv4Addr.fromStr host = .error e →
      UdpConnector.connect os c host port =
        some (.error ⟨.invalidInput, .addrParse e⟩)) := by
  constructor
  · intro a hp; simp [UdpConnector.connect, hc, h4, hp]
  · intro e hp; simp [UdpConnector.connect, hc, h4, hp]

/-- C4, witness: on the concrete V4-bound oracle, `connect "10.0.0.1"`
succeeds with destination `10.0.0.1:80` and `connect "hostname"` fails
with an InvalidInput error caused by the parse error. -/
theorem connect_v4_literal_witness :
    UdpConnector.connect osDemo4 cDemo "10.0.0.1".toList 80 =
      some (.ok ⟨6, .v4 ⟨⟨10, 0, 0, 1⟩, 80⟩⟩) ∧
    UdpConnector.connect osDemo4 cDemo "hostname".toList 80 =
      some (.error ⟨.invalidInput, .addrParse .invalid⟩) :=
  ⟨(connect_v4_literal osDemo4 cDemo ⟨⟨192, 168, 1, 2⟩, 1900⟩
      "10.0.0.1".toList 80 6 rfl rfl).1 ⟨10, 0, 0, 1⟩ rfl,
   (connect_v4_literal osDemo4 cDemo ⟨⟨192, 168, 1, 2⟩, 1900⟩
      "hostname".toList 80 6 rfl rfl).2 .invalid rfl⟩

/-- C6 (confirmed): `bind_reuse` resolves its input to the first concrete
address, creates the builder matching that address's family, enables
address-reuse on every platform, enables port-reuse exactly on non-Windows
platforms, then binds — and its result is the bind outcome verbatim,
error or not. -/
theorem bind_reuse_configures (windows : Bool) (os : Os)
    (resolved : Resolution) (a : SocketAddr)
    (h : addr_from_trait resolved = .ok a)
    (hra : os.reuseAddress true = .ok ())
    (hrp : os.reusePort true = .ok ())
    (hb : builderResOf os a = .ok ()) :
    bind_reuse windows os resolved =
      (builderCallOf a :: .setReuseAddress true ::
        ((if windows then [] else [.setReusePort true]) ++ [.builderBind a]),
       os.builderBind a) := by
  cases windows <;>
    simp [bind_reuse, h, hb, reuse_port, reuse_port_windows,
      reuse_port_unix, hra, hrp]

/-- C6, witness: on a non-Windows platform with an oracle whose bind call
fails with an address-in-use OS error, `bind_reuse` sets address-reuse
and port-reuse, binds, and surfaces exactly that OS error. -/
theorem bind_reuse_configures_witness :
    bind_reuse false osBindErr (.ok [addrDemo]) =
      ([.newBuilderV4, .setReuseAddress true, .setReusePort true,
        .builderBind addrDemo],
       .error ⟨.addrInUse, .osCode 98⟩) :=
  bind_reuse_configures false osBindErr (.ok [addrDemo]) addrDemo
    rfl rfl rfl rfl

/-! ### Decimal round trip: formatting a `u16` and parsing it back -/

/-- `digitValue` inverts `digitChar` on decimal digits. -/
theorem digitValue_digitChar (d : Nat) (hd : d < 10) :
    digitValue 10 (digitChar d) = some d := by
  interval_cases d <;> rfl

/-- The accumulator only grows while folding in digits. -/
theorem decValN_le (l : List Nat) : ∀ acc, acc ≤ decValN acc l := by
  induction l with
  | nil => intro acc; exact Nat.le_refl _
  | cons d r ih =>
    intro acc
    exact le_trans (by omega) (ih (acc * 10 + d))

/-- Appending a final digit multiplies the value by ten and adds it. -/
theorem decValN_append (l : List Nat) (d : Nat) :
    ∀ acc, decValN acc (l ++ [d]) = decValN acc l * 10 + d := by
  induction l with
  | nil => intro acc; rfl
  | cons e r ih => intro acc; exact ih (acc * 10 + e)

/-- What `natToCharsAux` emits: a non-empty list of decimal digits whose
value is the formatted number, in front of the accumulator. -/
theorem natToCharsAux_spec (fuel : Nat) :
    ∀ n acc, 0 < fuel → n < 10 ^ fuel →
    ∃ ds : List Nat, natToCharsAux fuel n acc = ds.map digitChar ++ acc ∧
      ds ≠ [] ∧ (∀ d ∈ ds, d < 10) ∧ decValN 0 ds = n := by
  induction fuel with
  | zero => intro n acc hf _; omega
  | succ fuel ih =>
    intro n acc _ hn
    by_cases h10 : n < 10
    · refine ⟨[n], ?_, by simp, by simpa using h10, by simp [decValN]⟩
      simp [natToCharsAux, h10]
    · have hdiv : n / 10 < 10 ^ fuel := by
        rw [Nat.div_lt_iff_lt_mul (by norm_num)]
        calc n < 10 ^ (fuel + 1) := hn
        _ = 10 ^ fuel * 10 := by ring
      have hfpos : 0 < fuel := by
        rcases Nat.eq_zero_or_pos fuel with h0 | h
        · exfalso; rw [h0] at hdiv; simp at hdiv; omega
        · exact h
      obtain ⟨ds, heq, hne, hlt, hval⟩ :=
        ih (n / 10) (digitChar (n % 10) :: acc) hfpos hdiv
      refine ⟨ds ++ [n % 10], ?_, by simp, ?_, ?_⟩
      · rw [natToCharsAux, if_neg h10, heq]
        simp
      · intro d hd
        rcases List.mem_append.mp hd with h | h
        · exact hlt d h
        · simp at h; omega
      · rw [decValN_append, hval]
        omega

/-- `readNumberLoop` in radix 10, bound `2^16`, no digit limit, applied
to formatted decimal digits: consumes them all and computes their
value. -/
theorem readNumberLoop_digits (ds : List Nat) :
    ∀ acc cnt, (∀ d ∈ ds, d < 10) → decValN acc ds < 65536 →
    readNumberLoop 10 65536 none (ds.map digitChar) acc cnt =
      some (decValN acc ds, cnt + ds.length, []) := by
  induction ds with
  | nil => intro acc cnt _ _; simp [readNumberLoop, decValN]
  | cons d r ih =>
    intro acc cnt hd hv
    have hd0 : d < 10 := hd d (List.mem_cons_self d r)
    have hv' : decValN (acc * 10 + d) r < 65536 := hv
    have hacc : acc * 10 + d < 65536 :=
      lt_of_le_of_lt (decValN_le r (acc * 10 + d)) hv'
    rw [List.map_cons, readNumberLoop, digitValue_digitChar d hd0]
    simp only [if_neg (by omega : ¬ 65536 ≤ acc * 10 + d)]
    rw [ih (acc * 10 + d) (cnt + 1) (fun e he => hd e (List.mem_cons_of_mem d he)) hv']
    refine congrArg some ?_
    refine congrArg (Prod.mk _) ?_
    refine congrArg (fun m => Prod.mk m ([] : Str)) ?_
    simp
    omega

/-- Parsing back the decimal rendering of a `u16` with `read_number`
yields the number and consumes the whole input. -/
theorem readNumber_natToChars (p : Nat) (hp : p < 65536) :
    readNumber 10 65536 none true (natToChars p) = some (p, []) := by
  have hpow : p < 10 ^ (p + 1) :=
    lt_of_lt_of_le (Nat.lt_pow_self (by norm_num) p)
      (Nat.pow_le_pow_right (by norm_num) (Nat.le_succ p))
  obtain ⟨ds, heq, hne, hlt, hval⟩ :=
    natToCharsAux_spec (p + 1) p [] (Nat.succ_pos p) hpow
  have hmap : natToChars p = ds.map digitChar := by
    unfold natToChars; rw [heq, List.append_nil]
  have hloop := readNumberLoop_digits ds 0 0 hlt (by rw [show decValN 0 ds = p from hval]; exact hp)
  rw [hval] at hloop
  unfold readNumber
  rw [hmap, hloop]
  have hlen : ds.length ≠ 0 := fun h => hne (List.length_eq_zero.mp h)
  simp [hlen]

/-- The IPv6 reader on `"::1]"` followed by anything: consumes `::1`,
produces the loopback segments and stops at the `]`. -/
theorem readIpv6_loopback (tail : Str) :
    readIpv6 (':' :: ':' :: '1' :: ']' :: tail) =
      some (⟨[0, 0, 0, 0, 0, 0, 0, 1]⟩, ']' :: tail) := rfl

/-- Full evaluation of `SocketAddrV6::from_str` on `"[::1]:<p>"` for a
formatted `u16` port `p`. -/
theorem fromStrV6_loopback (p : Nat) (hp : p < 65536) :
    SocketAddrV6.fromStr
        ('[' :: ':' :: ':' :: '1' :: ']' :: ':' :: natToChars p) =
      .ok ⟨⟨[0, 0, 0, 0, 0, 0, 0, 1]⟩, p, 0, 0⟩ := by
  have hred : readSockAddrV6
      ('[' :: ':' :: ':' :: '1' :: ']' :: ':' :: natToChars p) =
      (match readNumber 10 65536 none true (natToChars p) with
       | none => none
       | some (q, s5) =>
         some ((⟨⟨[0, 0, 0, 0, 0, 0, 0, 1]⟩, q, 0, 0⟩ : SocketAddrV6), s5)) := rfl
  unfold SocketAddrV6.fromStr parseWith
  rw [hred, readNumber_natToChars p hp]

/-- `str::find('[')` on a string starting with `[`. -/
theorem strFind_head (l : Str) (c : Char) : strFind (c :: l) c = some 0 := by
  simp [strFind]

/-- `str::rfind(']')` on a string ending in `]` is the last index. -/
theorem strRfind_last (l : Str) (c : Char) :
    strRfind (l ++ [c]) c = some l.length := by
  unfold strRfind
  rw [List.reverse_append]
  simp [strFind_head]

/-- Wrapping any host text in brackets makes the bracket-framing check of
`connect` succeed. -/
theorem bracketCheck_wrapped (host : Str) :
    bracketCheck ('[' :: host ++ [']']) = some true := by
  have hfind : strFind ('[' :: host ++ [']']) '[' = some 0 := by
    rw [List.cons_append]
    exact strFind_head (host ++ [']']) '['
  have hrf : strRfind ('[' :: host ++ [']']) ']' =
      some (host.length + 1) := by
    have h := strRfind_last ('[' :: host) ']'
    simpa using h
  have hsub : checkedSub ('[' :: host ++ [']']).length 1 =
      some (host.length + 1) := by
    simp [checkedSub]
  have hrf2 : strRfind ('[' :: (host ++ [']'])) ']' =
      some (host.length + 1) := by
    rw [← List.cons_append]
    exact hrf
  unfold bracketCheck
  rw [if_pos hfind, hsub]
  simp [hrf2]

/-- C7 (confirmed): for a V6-bound connector, connecting to any
unbracketed host text and to its bracket-wrapped form parses the very
same `"[host]:port"` string and so yields identical results; in
particular `"::1"` and `"[::1]"` both succeed for every 16-bit port and
produce the same destination, the loopback address with that port and the
local flow-info and scope-id. -/
theorem connect_bracket_equiv (os : Os) (c : UdpConnector)
    (n : SocketAddrV6) (k : UdpSock) (port : Nat)
    (hc : os.tryClone c.sock = .ok k)
    (h6 : os.localAddr c.sock = .ok (.v6 n))
    (hp : port < 65536) :
    (∀ host, bracketCheck host = some false →
      UdpConnector.connect os c host port =
        UdpConnector.connect os c ('[' :: host ++ [']']) port) ∧
    UdpConnector.connect os c "::1".toList port =
      some (.ok ⟨k, .v6 ⟨⟨[0, 0, 0, 0, 0, 0, 0, 1]⟩, port,
        n.flowinfo, n.scopeId⟩⟩) ∧
    UdpConnector.connect os c "[::1]".toList port =
      UdpConnector.connect os c "::1".toList port := by
  have hequiv : ∀ host, bracketCheck host = some false →
      UdpConnector.connect os c host port =
        UdpConnector.connect os c ('[' :: host ++ [']']) port := by
    intro host hbr
    simp only [UdpConnector.connect, hc, h6, hbr, bracketCheck_wrapped]
    simp [List.append_assoc]
  have hone : UdpConnector.connect os c "::1".toList port =
      some (.ok ⟨k, .v6 ⟨⟨[0, 0, 0, 0, 0, 0, 0, 1]⟩, port,
        n.flowinfo, n.scopeId⟩⟩) := by
    have hbr : bracketCheck "::1".toList = some false := rfl
    simp only [UdpConnector.connect, hc, h6, hbr]
    rw [show ('[' :: "::1".toList ++ ']' :: ':' :: natToChars port) =
      ('[' :: ':' :: ':' :: '1' :: ']' :: ':' :: natToChars port) from rfl]
    rw [fromStrV6_loopback port hp]
    simp
  refine ⟨hequiv, hone, ?_⟩
  have h := hequiv "::1".toList rfl
  rw [show ('[' :: "::1".toList ++ [']']) = "[::1]".toList from rfl] at h
  exact h.symm

/-- C7, witness at the concrete oracle: `connect "::1" 1900` and
`connect "[::1]" 1900` coincide and produce the loopback destination with
the local flow-info 42 and scope-id 9. -/
theorem connect_bracket_equiv_witness :
    UdpConnector.connect osDemo cDemo "::1".toList 1900 =
      UdpConnector.connect osDemo cDemo "[::1]".toList 1900 ∧
    UdpConnector.connect osDemo cDemo "::1".toList 1900 =
      some (.ok ⟨6, .v6 ⟨⟨[0, 0, 0, 0, 0, 0, 0, 1]⟩, 1900, 42, 9⟩⟩) := by
  obtain ⟨h1, h2, h3⟩ :=
    connect_bracket_equiv osDemo cDemo n6Demo 6 1900 rfl rfl (by norm_num)
  exact ⟨h3.symm, h2⟩

end Ssdp
